import Mathlib

/-!
Verification of the request/response orchestration subsystem of the
ClipboardGPT repository (BeepConf Qt Chat).  The Python sources are embedded
shallowly: pure fragments become Lean functions over explicit data types,
stateful handlers become functions on an explicit session state, and code
that can raise returns `Except`.  Python strings are modelled through their
character lists so that every definition evaluates by kernel reduction.
-/

namespace ClipboardGPT

/-! ## Python string primitives -/

/-- Python `str.strip()` on a character list: drop leading and trailing
whitespace.  Lean `Char.isWhitespace` covers the blank, tab, newline and
carriage-return characters that occur in chat text. -/
def stripChars (l : List Char) : List Char :=
  ((l.dropWhile Char.isWhitespace).reverse.dropWhile Char.isWhitespace).reverse

/-- Python `text.strip()`. -/
def pyStrip (s : String) : String := ⟨stripChars s.data⟩

/-- Count of maximal non-whitespace runs in a character list; the boolean
argument says whether the scan is currently inside a run.  This is
`len(text.split())` in Python, which splits on whitespace runs and drops
empty pieces. -/
def runCount : List Char → Bool → Nat
  | [], _ => 0
  | c :: rest, inWord =>
    if c.isWhitespace then runCount rest false
    else if inWord then runCount rest true
    else runCount rest true + 1

/-- Python `len(text.split())`. -/
def pyWordCount (s : String) : Nat := runCount s.data false

/-- Python substring test `a in b`. -/
def pyIn (a b : String) : Bool := decide (a.data <:+: b.data)

/-- Python slice `s[:n]`. -/
def pyTake (n : Nat) (s : String) : String := ⟨s.data.take n⟩

/-- Python `sep.join(parts)`. -/
def joinSep (sep : String) : List String → String
  | [] => ""
  | [x] => x
  | x :: y :: rest => x ++ sep ++ joinSep sep (y :: rest)

/-! ## Raw chat-completion results

`_on_api_finished` (src/beepconf_qt_chat.py:347-361) and `send_to_backend`
(src/main.py:83-96) accept two shapes of raw result: an object exposing a
`choices` attribute, or a plain mapping with a `"choices"` key.  Each choice
is itself either a plain mapping (keys `"message"`, whose value has an
optional `"content"` key, and `"text"`) or an object (attributes `message`,
with an optional `content` attribute, and `text`).  `none` models an absent
key or attribute; present string values are modelled as strings (a present
`None` value is outside this model). -/

/-- The `message` value of a mapping-shaped choice. -/
structure MsgMap where
  content : Option String
deriving DecidableEq

/-- The `message` attribute value of an object-shaped choice. -/
structure MsgAttr where
  content : Option String
deriving DecidableEq

/-- One element of the `choices` sequence, in either of the two shapes the
parser probes with `isinstance(c, dict)`. -/
inductive RawChoice
  | mapShape (message : Option MsgMap) (text : Option String)
  | objShape (message : Option MsgAttr) (text : Option String)
deriving DecidableEq

/-- A raw chat-completion result: object-shaped or mapping-shaped, with the
`choices` attribute or key possibly absent. -/
inductive RawResult
  | objResult (choices : Option (List RawChoice))
  | mapResult (choices : Option (List RawChoice))
deriving DecidableEq

/-- Exceptions the embedded fragments can raise. -/
inductive PyErr
  | attrFault   -- AttributeError
  | typeFault   -- TypeError
  | ioFault     -- OSError while opening a file
  | valueFault  -- json.load rejecting the content
deriving DecidableEq

/-- Python truthiness of an optional string value: an absent value and the
empty string are falsy. -/
def truthy : Option String → Bool
  | none => false
  | some s => s ≠ ""

/-- Python `a or b or ""` over optional string values. -/
def orChain (a b : Option String) : String :=
  if truthy a then a.getD "" else if truthy b then b.getD "" else ""

/-- Per-choice text extraction, shared verbatim by
src/beepconf_qt_chat.py:351-361 and src/main.py:85-92.  A mapping-shaped
choice takes `msg.get("content") or c.get("text") or ""` where `msg` is
`c.get("message") or {}`; an object-shaped choice takes
`getattr(msg, "content", "")` when the `message` attribute is present, and
`getattr(c, "text", "") or ""` otherwise.  The result is stripped. -/
def choiceText : RawChoice → String
  | .mapShape message text => pyStrip (orChain (message.bind MsgMap.content) text)
  | .objShape message text =>
    match message with
    | some m => pyStrip (m.content.getD "")
    | none => pyStrip (text.getD "")

/-- `choices = getattr(resp, "choices", None) or resp.get("choices", [])`
(src/beepconf_qt_chat.py:349).  On an object-shaped result the attribute is
used only when present and truthy (a non-empty list); otherwise the `or`
falls through to `resp.get`, which raises `AttributeError` because the
object is not a mapping.  On a mapping the `getattr` yields `None` and
`resp.get("choices", [])` never raises. -/
def qtChoices : RawResult → Except PyErr (List RawChoice)
  | .objResult (some l) => if l = [] then .error .attrFault else .ok l
  | .objResult none => .error .attrFault
  | .mapResult c => .ok (c.getD [])

/-- The candidate-extraction block of `_on_api_finished`
(src/beepconf_qt_chat.py:347-361): resolve `choices`, then map each choice
to its stripped text, keeping empty strings and the original order. -/
def qtNormalize (r : RawResult) : Except PyErr (List String) :=
  (qtChoices r).map (List.map choiceText)

/-- `choices = getattr(resp, "choices", None) or (resp.get("choices") if
isinstance(resp, dict) else [])` (src/main.py:83).  Here an object-shaped
result is safe in every case (a falsy attribute falls through to the
`isinstance` branch, which yields `[]`), but a mapping without the key
gives `None or None = None`, and iterating `None` raises `TypeError`. -/
def fletChoices : RawResult → Except PyErr (List RawChoice)
  | .objResult c => .ok (c.getD [])
  | .mapResult (some l) => .ok l
  | .mapResult none => .error .typeFault

/-- The parsing block of `send_to_backend` (src/main.py:83-96): texts are
extracted per choice as in the Qt variant, empty texts are dropped, and the
survivors are joined with a blank line. -/
def fletParse (r : RawResult) : Except PyErr String :=
  (fletChoices r).map (fun l => joinSep "\n\n" ((l.map choiceText).filter (· ≠ "")))

/-! ## Spec-side per-choice selection (for the amended claim C1)

Written from the words of the amended claim, to be compared with
`choiceText`, which is translated from the code. -/

/-- The amended fallback for the `text` field of a choice: its value when
present and non-empty, else the empty string. -/
def specText : Option String → String
  | some t => if t = "" then "" else t
  | none => ""

/-- The per-choice text as the amended claim C1 words it: for a
mapping-shaped choice, `message.content` when present and non-empty, else
the `text` field when present and non-empty, else the empty string; for an
object-shaped choice with a message object, the content attribute (empty
when absent) with no fallback to `text`; otherwise the `text` attribute
(empty when absent); each stripped of surrounding whitespace. -/
def specChoiceText : RawChoice → String
  | .mapShape message text =>
    pyStrip (match message.bind MsgMap.content with
             | some s => if s = "" then specText text else s
             | none => specText text)
  | .objShape message text =>
    match message with
    | some m => pyStrip (m.content.getD "")
    | none => pyStrip (text.getD "")

theorem choiceText_eq_spec (c : RawChoice) : choiceText c = specChoiceText c := by
  cases c with
  | mapShape message text =>
    simp only [choiceText, specChoiceText]
    rcases message with _ | ⟨⟨content⟩⟩ <;>
      [skip; rcases content with _ | s] <;>
      rcases text with _ | t <;>
      simp [orChain, truthy, specText, Option.bind]
  | objShape message text => cases message <;> rfl

/-! ## ApiWorker.run (src/core.py:120-154)

The network is abstracted by an oracle `call` giving the outcome of
`client.chat.completions.create`: `call true` is the call with
`request_timeout=self.timeout`, `call false` the identical call with the
timeout keyword omitted. -/

/-- Outcome of one `create` call as seen by the `try/except` nesting in
`ApiWorker.run`: a response, a `TypeError` carrying its `str(e)` text, or
any other exception carrying its text. -/
inductive CallOutcome (α : Type)
  | success (resp : α)
  | typeFault (msg : String)
  | otherFault (msg : String)
deriving DecidableEq

/-- What `self.finished.emit` receives: `(resp, None)` on success or
`(None, (e, tb))` on failure. -/
inductive Emitted (α : Type)
  | done (resp : α)
  | failed (msg : String)
deriving DecidableEq

/-- `ApiWorker.run` (src/core.py:120-154).  The first call passes
`request_timeout`; a `TypeError` whose text mentions `request_timeout`
triggers one retry of the identical call without that keyword; any other
exception, and any exception of the retry, reaches the outer `except` and
is emitted as a failure.  The second component records the calls actually
issued, in order, `true` meaning the timeout keyword was passed. -/
def apiWorkerRun {α : Type} (call : Bool → CallOutcome α) : Emitted α × List Bool :=
  match call true with
  | .success r => (.done r, [true])
  | .typeFault m =>
    if pyIn "request_timeout" m then
      match call false with
      | .success r => (.done r, [true, false])
      | .typeFault m2 => (.failed m2, [true, false])
      | .otherFault m2 => (.failed m2, [true, false])
    else (.failed m, [true])
  | .otherFault m => (.failed m, [true])

/-! ## Token estimation (src/core.py:89-104) -/

/-- `estimate_tokens` from src/core.py in its heuristic-fallback branch
(no `tiktoken` available): `if not text: return 0`, else
`int(max(1, words / 0.75))` with `words = len(text.split())`.  The IEEE-754
quotient `words / 0.75` is the correctly rounded value of the real
`4*words/3`; when `3` divides `words` that value is an exactly
representable integer, and otherwise it is at least `1/3` away from every
integer, so Python `int(...)` (truncation toward zero) equals the exact
floor, which is Nat division `4 * words / 3`. -/
def estimate_tokens (text : String) : Nat :=
  if text = "" then 0 else max 1 (4 * pyWordCount text / 3)

/-- The same `int(max(1, words / 0.75))` heuristic as recomputed inline by
`_on_api_finished` (src/beepconf_qt_chat.py:377-378), applied there to the
input editor text with no emptiness check. -/
def naiveTokens (text : String) : Nat := max 1 (4 * pyWordCount text / 3)

/-! ## JSON persistence (src/core.py:35-48, src/beepconf_qt_chat.py:46-59) -/

/-- On-disk state of a JSON document as `load_json` can encounter it:
absent, unreadable (`open` raises), syntactically invalid (`json.load`
raises), or valid with decoded content `data`. -/
inductive FileState (J : Type)
  | missing
  | unreadable
  | invalid
  | valid (data : J)
deriving DecidableEq

/-- `path.exists()`. -/
def FileState.existsOnDisk {J : Type} : FileState J → Bool
  | .missing => false
  | _ => true

/-- `json.load(path.open(...))`: raises unless the file is readable and its
content parses. -/
def FileState.readJson {J : Type} : FileState J → Except PyErr J
  | .missing => .error .ioFault
  | .unreadable => .error .ioFault
  | .invalid => .error .valueFault
  | .valid v => .ok v

/-- `load_json(path, default)` (src/core.py:35-42): inside `try`, if the
path exists, open and parse, returning the parsed value; any exception is
swallowed by `except Exception: return default`; a missing path falls
through to the final `return default`.  The function is total: no exception
escapes to the caller. -/
def load_json {J : Type} (fs : FileState J) (default : J) : J :=
  if fs.existsOnDisk then
    match fs.readJson with
    | .ok v => v
    | .error _ => default
  else default

/-- States in which the document cannot be parsed from disk. -/
def FileState.bad {J : Type} : FileState J → Bool
  | .valid _ => false
  | _ => true

/-- One history record `{"prompt": ..., "responses": [...]}`. -/
structure HistoryEntry where
  prompt : String
  responses : List String
deriving DecidableEq

/-- `_append_history` (src/beepconf_qt_chat.py:272-277): load the whole
array with default `[]`, append one entry, save the whole array; after
`save_json` the file holds exactly the written array. -/
def append_history (fs : FileState (List HistoryEntry)) (prompt : String)
    (responses : List String) : FileState (List HistoryEntry) :=
  .valid (load_json fs [] ++ [⟨prompt, responses⟩])

/-! ## The Qt chat session (src/beepconf_qt_chat.py:98-387)

Only the state the claims speak about is tracked: the input editor text,
the clipboard, the pending attachment list `current_attachments`, the
history file, and the `total_tokens` accumulator. -/

/-- One entry of `current_attachments`: `{"path": p, "text": txt}`. -/
structure Attachment where
  path : String
  text : String
deriving DecidableEq

/-- The session state owned by `MainWindow`. -/
structure SessionState where
  editor : String
  clipboard : String
  attachments : List Attachment
  histFile : FileState (List HistoryEntry)
  totalTokens : Nat
deriving DecidableEq

/-- `DEFAULT_SYSTEM_PROMPT` (src/beepconf_qt_chat.py:37-39). -/
def defaultSystemPrompt : String :=
  "You are a helpful assistant. Provide concise answers suitable for copy-pasting back to the clipboard."

/-- One element of the `messages` list sent to the endpoint. -/
structure ChatMessage where
  role : String
  content : String
deriving DecidableEq

/-- The text appended to the prompt for one attachment in `on_send_clicked`
(src/beepconf_qt_chat.py:320-323): a header naming the path, then the
attachment text truncated to 2000 characters. -/
def attachmentBlock (a : Attachment) : String :=
  "\n\n[Attachment: " ++ a.path ++ "]\n" ++ pyTake 2000 a.text

/-- The loop `for a in self.current_attachments: prompt += ...`
(src/beepconf_qt_chat.py:321-323). -/
def buildPrompt (base : String) (atts : List Attachment) : String :=
  atts.foldl (fun p a => p ++ attachmentBlock a) base

/-- What a click on Send does: nothing (both the stripped editor text and
the clipboard were empty) or a request with the built message list. -/
inductive SendAction
  | rejected
  | sent (messages : List ChatMessage)
deriving DecidableEq

/-- `on_send_clicked` (src/beepconf_qt_chat.py:312-337): the prompt is the
stripped editor text, else the raw clipboard text; when both are empty the
send is rejected; otherwise the attachments are appended to the prompt and
the worker is started with a system and a user message.  The session state
is returned unchanged: in particular `current_attachments` is read but
never cleared or reassigned anywhere in the class. -/
def on_send_clicked (s : SessionState) : SendAction × SessionState :=
  let p0 := pyStrip s.editor
  let p1 := if p0 = "" then s.clipboard else p0
  if p1 = "" then (.rejected, s)
  else
    (.sent [⟨"system", defaultSystemPrompt⟩, ⟨"user", buildPrompt p1 s.attachments⟩], s)

/-- The `(e, tb)` pair emitted on failure: a short description and a full
traceback, kept as two separate fields. -/
structure Failure where
  text : String
  trace : String
deriving DecidableEq

/-- `_on_api_finished` (src/beepconf_qt_chat.py:339-387), restricted to the
tracked state.  A truthy `err` only logs: no history entry, no token or
cost update.  Otherwise the parse block runs inside `try`: a `None`
response or an unsupported shape raises (`AttributeError`), the exception
is caught and logged, and the state is again unchanged.  On a successful
parse the handler appends `{"prompt": editor text, "responses":
candidates}` to the history and adds the naive token estimate of the
editor text to `total_tokens`. -/
def on_api_finished (s : SessionState) (resp : Option RawResult) (err : Option Failure) :
    SessionState :=
  match err with
  | some _ => s
  | none =>
    match resp with
    | none => s
    | some r =>
      match qtNormalize r with
      | .error _ => s
      | .ok candidates =>
        { s with
          histFile := append_history s.histFile s.editor candidates,
          totalTokens := s.totalTokens + naiveTokens s.editor }

/-! ## Auto-pick matching (src/beepconf_qt_chat.py:894-903) -/

/-- The matching loop of `run_pick`: `idx = None; for i, c in
enumerate(candidates): if chosen and chosen in c: idx = i; break`.  `some i`
is the first index whose candidate contains the non-empty `chosen` as a
substring. -/
def pickScan (chosen : String) : List String → Option Nat
  | [] => none
  | c :: rest =>
    if chosen ≠ "" ∧ pyIn chosen c then some 0
    else (pickScan chosen rest).map (· + 1)

/-- `if idx is None: idx = 0` (src/beepconf_qt_chat.py:901-903). -/
def pickIndex (cands : List String) (chosen : String) : Nat :=
  (pickScan chosen cands).getD 0

/-- `chosen = text.strip()` followed by the scan
(src/beepconf_qt_chat.py:895-903). -/
def runPickIndex (cands : List String) (text : String) : Nat :=
  pickIndex cands (pyStrip text)

/-! ## Helper instances and lemmas -/

instance {ε α : Type} [DecidableEq ε] [DecidableEq α] : DecidableEq (Except ε α)
  | .ok a, .ok b =>
    if h : a = b then .isTrue (by rw [h]) else .isFalse (fun hh => h (Except.ok.inj hh))
  | .ok _, .error _ => .isFalse (fun hh => Except.noConfusion hh)
  | .error _, .ok _ => .isFalse (fun hh => Except.noConfusion hh)
  | .error a, .error b =>
    if h : a = b then .isTrue (by rw [h]) else .isFalse (fun hh => h (Except.error.inj hh))

theorem pyIn_self (s : String) : pyIn s s = true := by
  unfold pyIn
  exact decide_eq_true (List.infix_refl _)

theorem data_append (m n : String) : (m ++ n).data = m.data ++ n.data := rfl

theorem pyIn_append_right (x m n : String) (h : pyIn x m = true) : pyIn x (m ++ n) = true := by
  unfold pyIn at h ⊢
  refine decide_eq_true ((of_decide_eq_true h).trans ?_)
  rw [data_append]
  exact (List.prefix_append m.data n.data).isInfix

theorem pyIn_append_left (x m n : String) (h : pyIn x n = true) : pyIn x (m ++ n) = true := by
  unfold pyIn at h ⊢
  refine decide_eq_true ((of_decide_eq_true h).trans ?_)
  rw [data_append]
  exact (List.suffix_append m.data n.data).isInfix

theorem pyIn_buildPrompt_of_base (x base : String) (atts : List Attachment)
    (h : pyIn x base = true) : pyIn x (buildPrompt base atts) = true := by
  induction atts generalizing base with
  | nil => exact h
  | cons a rest ih =>
    simp only [buildPrompt, List.foldl_cons]
    exact ih (base ++ attachmentBlock a) (pyIn_append_right _ _ _ h)

theorem pyIn_block_buildPrompt (base : String) (atts : List Attachment) (a : Attachment)
    (ha : a ∈ atts) : pyIn (attachmentBlock a) (buildPrompt base atts) = true := by
  induction atts generalizing base with
  | nil => cases ha
  | cons b rest ih =>
    simp only [buildPrompt, List.foldl_cons]
    rcases List.mem_cons.mp ha with h | h
    · subst h
      exact pyIn_buildPrompt_of_base _ _ _ (pyIn_append_left _ _ _ (pyIn_self _))
    · exact ih (base ++ attachmentBlock b) h

theorem pickScan_finds (chosen : String) (cands : List String) (i : Nat)
    (hi : i < cands.length) (hne : chosen ≠ "")
    (hin : pyIn chosen (cands.getD i "") = true)
    (hless : ∀ j, j < i → pyIn chosen (cands.getD j "") = false) :
    pickScan chosen cands = some i := by
  induction cands generalizing i with
  | nil => simp at hi
  | cons c rest ih =>
    cases i with
    | zero =>
      simp only [List.getD_cons_zero] at hin
      simp only [pickScan]
      rw [if_pos ⟨hne, hin⟩]
    | succ k =>
      have h0 : ¬(chosen ≠ "" ∧ pyIn chosen c) := by
        have hz := hless 0 (Nat.succ_pos k)
        simp only [List.getD_cons_zero] at hz
        simp [hz]
      simp only [pickScan, if_neg h0]
      rw [ih k (by simpa using Nat.lt_of_succ_lt_succ hi) (by simpa using hin)
        (fun j hj => by simpa using hless (j + 1) (Nat.succ_lt_succ hj))]
      rfl

theorem pickScan_misses (chosen : String) (cands : List String)
    (h : chosen = "" ∨ ∀ c ∈ cands, pyIn chosen c = false) :
    pickScan chosen cands = none := by
  induction cands with
  | nil => rfl
  | cons c rest ih =>
    have hc : ¬(chosen ≠ "" ∧ pyIn chosen c) := by
      rcases h with h | h
      · simp [h]
      · simp [h c (List.mem_cons_self c rest)]
    simp only [pickScan, if_neg hc]
    rw [ih ?_]
    · rfl
    · rcases h with h | h
      · exact .inl h
      · exact .inr fun d hd => h d (List.mem_cons_of_mem _ hd)

theorem appendAll_from_valid (es l : List HistoryEntry) :
    es.foldl (fun fs e => append_history fs e.prompt e.responses) (.valid l)
      = .valid (l ++ es) := by
  induction es generalizing l with
  | nil => simp
  | cons e rest ih =>
    have h1 : append_history (.valid l) e.prompt e.responses = .valid (l ++ [e]) := rfl
    simp only [List.foldl_cons, h1, ih]
    simp

theorem floorQuot (w : ℕ) : (⌊(w : ℚ) / 0.75⌋₊ : ℕ) = 4 * w / 3 := by
  have h : ((w : ℚ)) / 0.75 = ((4 * w : ℕ) : ℚ) / ((3 : ℕ) : ℚ) := by push_cast; ring
  rw [h, Nat.floor_div_nat, Nat.floor_natCast]

/-! ## Claim theorems -/

/-- Claim C1, counterexample.  The claim says each text is `message.content`
if present, else the `text` field, else empty.  In this mapping-shaped
result the single choice has `message.content` present but empty and a
`text` field `"x"`, so the claim requires `[""]`; the Python `or` chain
treats the empty content as falsy and the code returns `["x"]`. -/
theorem C1_counterexample :
    qtNormalize (.mapResult (some [.mapShape (some ⟨some ""⟩) (some "x")])) = .ok ["x"] ∧
    qtNormalize (.mapResult (some [.mapShape (some ⟨some ""⟩) (some "x")])) ≠ .ok [""] := by
  decide

/-- Claim C1 as amended: for every mapping-shaped raw result, and every
object-shaped raw result whose choices list is present and non-empty,
normalization returns exactly one text per choice in the original order
without raising, each text chosen by `specChoiceText` (content only when
non-empty, shape-dependent fallback to the text field) and stripped;
empty texts are kept in place.  (An object-shaped result with a missing or
empty choices list instead raises `AttributeError`; see C5.) -/
theorem C1_theorem :
    (∀ cs : List RawChoice,
        qtNormalize (.mapResult (some cs)) = .ok (cs.map specChoiceText)) ∧
    (∀ cs : List RawChoice, cs ≠ [] →
        qtNormalize (.objResult (some cs)) = .ok (cs.map specChoiceText)) := by
  have hfun : choiceText = specChoiceText := funext choiceText_eq_spec
  constructor
  · intro cs
    simp [qtNormalize, qtChoices, Except.map, hfun]
  · intro cs h
    simp [qtNormalize, qtChoices, Except.map, h, hfun]

/-- Claim C1, witness: a concrete object-shaped result with one choice. -/
theorem C1_witness :
    qtNormalize (.objResult (some [.objShape (some ⟨some " Hello "⟩) none]))
      = .ok ["Hello"] := by
  rw [C1_theorem.2 [.objShape (some ⟨some " Hello "⟩) none] (by decide)]
  decide

/-- Claim C2: when the first `create` call (with `request_timeout`) raises a
`TypeError` whose text mentions `request_timeout`, `ApiWorker.run` issues
exactly one more call, identical except that the timeout keyword is
omitted, and emits that second outcome; a `TypeError` not mentioning the
keyword, or any other exception, is emitted as a failure with no retry. -/
theorem C2_theorem {α : Type} (call : Bool → CallOutcome α) :
    (∀ m, call true = .typeFault m → pyIn "request_timeout" m = true →
        apiWorkerRun call =
          ((match call false with
            | .success r => Emitted.done r
            | .typeFault m2 => .failed m2
            | .otherFault m2 => .failed m2), [true, false])) ∧
    (∀ m, call true = .typeFault m → pyIn "request_timeout" m = false →
        apiWorkerRun call = (.failed m, [true])) ∧
    (∀ m, call true = .otherFault m → apiWorkerRun call = (.failed m, [true])) := by
  refine ⟨?_, ?_, ?_⟩
  · intro m h1 h2
    simp only [apiWorkerRun, h1, h2]
    rcases hc : call false <;> simp [hc]
  · intro m h1 h2
    simp [apiWorkerRun, h1, h2]
  · intro m h1
    simp [apiWorkerRun, h1]

/-- Claim C2, witness: an oracle that rejects the timeout keyword once and
succeeds when it is omitted. -/
theorem C2_witness :
    apiWorkerRun (fun b =>
        if b then
          .typeFault "create() got an unexpected keyword argument request_timeout"
        else .success 7 : Bool → CallOutcome Nat)
      = (.done 7, [true, false]) := by
  have h := (C2_theorem (fun b =>
      if b then
        .typeFault "create() got an unexpected keyword argument request_timeout"
      else .success 7 : Bool → CallOutcome Nat)).1
    "create() got an unexpected keyword argument request_timeout" rfl (by decide)
  simpa using h

/-- Claim C3, counterexample.  On `"one two"` (two words) the claimed
formula gives `ceil(2 / 0.75) = 3`, but the code computes
`int(max(1, 2 / 0.75)) = 2`: Python `int` truncates instead of rounding
up. -/
theorem C3_counterexample :
    estimate_tokens "one two" = 2 ∧
    (⌈(pyWordCount "one two" : ℚ) / 0.75⌉₊ : ℕ) = 3 := by
  constructor
  · decide
  · rw [show pyWordCount "one two" = 2 from by decide]
    rw [show ((2 : ℕ) : ℚ) / 0.75 = 8 / 3 by norm_num]
    rw [Nat.ceil_eq_iff] <;> norm_num

/-- Claim C3 as amended: the heuristic fallback returns 0 for empty text
and `max 1 (floor(wordCount / 0.75))` (not the ceiling) for non-empty
text; the particular value `estimate("one two three") = 4` does hold. -/
theorem C3_theorem :
    estimate_tokens "" = 0 ∧
    (∀ t : String, t ≠ "" →
        estimate_tokens t = max 1 (⌊(pyWordCount t : ℚ) / 0.75⌋₊ : ℕ)) ∧
    estimate_tokens "one two three" = 4 := by
  refine ⟨rfl, ?_, by decide⟩
  intro t ht
  rw [floorQuot]
  simp [estimate_tokens, ht]

/-- Claim C3, witness for the non-empty case. -/
theorem C3_witness :
    estimate_tokens "one two three"
      = max 1 (⌊(pyWordCount "one two three" : ℚ) / 0.75⌋₊ : ℕ) :=
  C3_theorem.2.1 "one two three" (by decide)

/-- Claim C4, counterexample to its final conjunct.  With candidates
`["ab", "c", "b"]` and returned text `"b"` — exactly equal to
candidate 2 — the scan resolves to index 0, because candidate 0 already
contains `"b"` as a substring. -/
theorem C4_counterexample :
    pickIndex ["ab", "c", "b"] "b" = 0 ∧
    ["ab", "c", "b"].getD 2 "" = "b" ∧ (0 : ℕ) ≠ 2 := by
  decide

/-- Claim C4 as amended: the picker resolves to the smallest index whose
candidate contains the non-empty returned text as a substring; an empty
returned text, or one contained in no candidate, resolves to index 0; and
a returned text exactly equal to candidate 2 resolves to index 2 provided
it is not contained in candidate 0 or candidate 1. -/
theorem C4_theorem :
    (∀ (cands : List String) (chosen : String) (i : ℕ),
        i < cands.length → chosen ≠ "" →
        pyIn chosen (cands.getD i "") = true →
        (∀ j, j < i → pyIn chosen (cands.getD j "") = false) →
        pickIndex cands chosen = i) ∧
    (∀ (cands : List String) (chosen : String),
        (chosen = "" ∨ ∀ c ∈ cands, pyIn chosen c = false) →
        pickIndex cands chosen = 0) ∧
    (∀ (cands : List String) (chosen : String),
        cands.getD 2 "" = chosen → 2 < cands.length → chosen ≠ "" →
        pyIn chosen (cands.getD 0 "") = false →
        pyIn chosen (cands.getD 1 "") = false →
        pickIndex cands chosen = 2) := by
  refine ⟨?_, ?_, ?_⟩
  · intro cands chosen i hi hne hin hless
    unfold pickIndex
    rw [pickScan_finds chosen cands i hi hne hin hless]
    rfl
  · intro cands chosen h
    unfold pickIndex
    rw [pickScan_misses chosen cands h]
    rfl
  · intro cands chosen h2 hlen hne h0 h1
    unfold pickIndex
    rw [pickScan_finds chosen cands 2 hlen hne (by rw [h2]; exact pyIn_self chosen) ?_]
    · rfl
    · intro j hj
      match j, hj with
      | 0, _ => exact h0
      | 1, _ => exact h1

/-- Claim C4, witness: a returned text equal to candidate 2 and contained
in no earlier candidate resolves to index 2. -/
theorem C4_witness : pickIndex ["x", "yz", "b"] "b" = 2 :=
  C4_theorem.2.2 ["x", "yz", "b"] "b" (by decide) (by decide) (by decide)
    (by decide) (by decide)

/-- Claim C5, counterexample.  An object-shaped result without a `choices`
attribute makes `getattr(resp, "choices", None)` yield `None`, and the
fallback `resp.get("choices", [])` raises `AttributeError` on the
non-mapping, so normalization does not return an empty sequence. -/
theorem C5_counterexample :
    qtNormalize (.objResult none) = .error .attrFault ∧
    (Except.error .attrFault : Except PyErr (List String)) ≠ .ok [] := by
  decide

/-- Claim C5 as amended: each parser tolerates only one of the two
shape-missing cases.  The Qt parser returns an empty sequence for a
mapping without the `"choices"` key but raises `AttributeError` (caught
and logged by the enclosing handler) for an object without the attribute,
also when the attribute holds an empty list; the Flet backend returns an
empty result for an object without the attribute but raises `TypeError`
(caught and surfaced as an error string) for a mapping without the key. -/
theorem C5_theorem :
    qtNormalize (.mapResult none) = .ok [] ∧
    qtNormalize (.objResult none) = .error .attrFault ∧
    qtNormalize (.objResult (some [])) = .error .attrFault ∧
    fletParse (.objResult none) = .ok "" ∧
    fletParse (.mapResult none) = .error .typeFault := by
  decide

/-- Claim C6: when the worker reports a failure (`err` truthy), the handler
only logs: the history file and the token accumulator are unchanged. -/
theorem C6_theorem (s : SessionState) (resp : Option RawResult) (f : Failure) :
    (on_api_finished s resp (some f)).histFile = s.histFile ∧
    (on_api_finished s resp (some f)).totalTokens = s.totalTokens :=
  ⟨rfl, rfl⟩

/-- Claim C7: append followed by load yields the new entry last, from every
starting file state; appending a list of entries to an empty store and
loading yields exactly that list, in append order. -/
theorem C7_theorem :
    (∀ (fs : FileState (List HistoryEntry)) (p : String) (rs : List String),
        (load_json (append_history fs p rs) []).getLast? = some ⟨p, rs⟩) ∧
    (∀ es : List HistoryEntry,
        load_json
          (es.foldl (fun fs e => append_history fs e.prompt e.responses) .missing) []
          = es) := by
  constructor
  · intro fs p rs
    exact List.getLast?_concat _
  · intro es
    cases es with
    | nil => rfl
    | cons e rest =>
      have h1 : append_history .missing e.prompt e.responses = .valid [e] := rfl
      simp only [List.foldl_cons, h1, appendAll_from_valid]
      rfl

/-- Claim C8: `load_json` returns the caller-supplied default whenever the
file is missing, unreadable or not valid JSON; the embedded function is
total, so no exception reaches the caller. -/
theorem C8_theorem {J : Type} (fs : FileState J) (d : J) (h : fs.bad = true) :
    load_json fs d = d := by
  cases fs with
  | missing => rfl
  | unreadable => rfl
  | invalid => rfl
  | valid v => simp [FileState.bad] at h

/-- Claim C8, witness: a corrupted file and a concrete default. -/
theorem C8_witness :
    load_json (FileState.invalid : FileState (List HistoryEntry)) [⟨"p", ["r"]⟩]
      = [⟨"p", ["r"]⟩] :=
  C8_theorem _ _ rfl

/-- Claim C9, counterexample.  After a send with one pending attachment the
attachment list is unchanged (the code never clears
`current_attachments`), and a second send re-includes the earlier
attachment text in its user message. -/
theorem C9_counterexample :
    ((on_send_clicked ⟨"hi", "", [⟨"f.txt", "SECRET"⟩], .valid [], 0⟩).2.attachments
      = [⟨"f.txt", "SECRET"⟩]) ∧
    ((on_send_clicked { (on_send_clicked ⟨"hi", "", [⟨"f.txt", "SECRET"⟩], .valid [], 0⟩).2
        with editor := "next" }).1
      = .sent [⟨"system", defaultSystemPrompt⟩,
               ⟨"user", "next\n\n[Attachment: f.txt]\nSECRET"⟩]) := by
  decide

/-- Claim C9 as amended: a send leaves the session state, in particular the
pending attachment list, unchanged, and the prompt built for a send
contains the block (header plus truncated text) of every attachment that
is pending at that moment — so attachments persist and are re-sent by
every subsequent send instead of being consumed once. -/
theorem C9_theorem :
    (∀ s : SessionState, (on_send_clicked s).2 = s) ∧
    (∀ (base : String) (atts : List Attachment) (a : Attachment), a ∈ atts →
        pyIn (attachmentBlock a) (buildPrompt base atts) = true) := by
  constructor
  · intro s
    simp only [on_send_clicked]
    split <;> first | rfl | (split <;> rfl)
  · intro base atts a ha
    exact pyIn_block_buildPrompt base atts a ha

/-- Claim C9, witness for the containment conjunct. -/
theorem C9_witness :
    pyIn (attachmentBlock ⟨"f.txt", "SECRET"⟩)
      (buildPrompt "hi" [⟨"f.txt", "SECRET"⟩]) = true :=
  C9_theorem.2 "hi" [⟨"f.txt", "SECRET"⟩] ⟨"f.txt", "SECRET"⟩ (by decide)

/-- Claim C10: whenever the handler succeeds, the appended history entry
records the editor text as the prompt (the attachments and any clipboard
substitution affect only the sent message); and when the editor text is
blank and the clipboard non-empty, the send issues a request whose user
message is built from the clipboard, while the later history entry still
records the (blank) editor text. -/
theorem C10_theorem :
    (∀ (s : SessionState) (r : RawResult) (cs : List String),
        qtNormalize r = .ok cs →
        (load_json (on_api_finished s (some r) none).histFile []).getLast?
          = some ⟨s.editor, cs⟩) ∧
    (∀ s : SessionState, pyStrip s.editor = "" → s.clipboard ≠ "" →
        (on_send_clicked s).1
          = .sent [⟨"system", defaultSystemPrompt⟩,
                   ⟨"user", buildPrompt s.clipboard s.attachments⟩]) := by
  constructor
  · intro s r cs h
    simp only [on_api_finished, h]
    exact List.getLast?_concat _
  · intro s h1 h2
    simp [on_send_clicked, h1, h2]

/-- Claim C10, witness: blank editor, non-empty clipboard, one-choice
mapping-shaped response. -/
theorem C10_witness :
    ((load_json (on_api_finished ⟨"  ", "clip", [], .missing, 0⟩
        (some (.mapResult (some [.mapShape (some ⟨some "Hello"⟩) none]))) none).histFile
        []).getLast? = some ⟨"  ", ["Hello"]⟩) ∧
    ((on_send_clicked ⟨"  ", "clip", [], .missing, 0⟩).1
      = .sent [⟨"system", defaultSystemPrompt⟩, ⟨"user", buildPrompt "clip" []⟩]) :=
  ⟨C10_theorem.1 _ _ ["Hello"] (by decide),
   C10_theorem.2 _ (by decide) (by decide)⟩

end ClipboardGPT
